import Mathlib

/-!
Verification of the PhantomPay offline ledger and sync-reconciliation protocol.

Server side: the plpgsql routine `process_offline_batch` (supabase migration,
reproduced in the repository README) is embedded as a pure fold over the batch,
threading the authoritative transactions table, the running balance, and the
processed/failed result lists.

Client side: the Dexie-backed local store (`src/lib/db.ts`) is embedded as a
record holding the `transactions` and `wallet` tables, and each exported helper
becomes a pure state-passing function; the response-application part of the
sync engine (`syncEngine.ts`, `syncOfflineTransactions`) is embedded with the
remote call abstracted as a function from the collected batch to a response.

Timestamps are integers (milliseconds), monetary amounts are rationals
(SQL NUMERIC / JS number on values with two fractional digits).
-/

namespace PhantomPay

/-! ## Server side: `process_offline_batch` -/

/-- One element of the `payload->'transactions'` JSON array, with the fields
the routine extracts.  `signature` is `none` when the JSON field is absent or
null (`tx_signature IS NULL`), `description` likewise (the routine applies
`COALESCE(..., '')`). -/
structure BatchTx where
  offline_id : String
  amount : ℚ
  type : String
  signature : Option String
  description : Option String
  timestamp : Int
  deriving Repr, DecidableEq

/-- A row of the authoritative `transactions` table, with the columns the
routine inserts (`user_id, amount, type, description, status, offline_id,
signature`). -/
structure ServerTx where
  user_id : String
  amount : ℚ
  type : String
  description : String
  status : String
  offline_id : String
  signature : String
  deriving Repr, DecidableEq

/-- The JSONB object built by `process_offline_batch`: `error` is present only
on the two whole-batch error paths; `failed_ids` pairs an `offline_id` with a
`reason`. -/
structure BatchResponse where
  error : Option String
  processed_ids : List String
  failed_ids : List (String × String)
  new_balance : ℚ
  deriving Repr, DecidableEq

/-- Loop state of the routine: the authoritative table (rows inserted so far
included), the accumulated `processed_ids` and `failed_ids` arrays, and the
running `new_balance`. -/
structure BatchAcc where
  store : List ServerTx
  processed : List String
  failed : List (String × String)
  bal : ℚ
  deriving Repr, DecidableEq

/-- The idempotency check `SELECT COUNT(*) ... WHERE offline_id = tx_offline_id`
compared with 0: does the authoritative table already hold this id? -/
def storeHasId (store : List ServerTx) (oid : String) : Bool :=
  (store.filter (fun s => s.offline_id = oid)).length > 0

/-- The signature data-quality test `tx_signature IS NULL OR tx_signature = ''`. -/
def sigMissing : Option String → Bool
  | none => true
  | some s => s = ""

/-- The row built by the routine's INSERT for an accepted transaction
(`status` is the literal `'synced'`). -/
def mkServerTx (uid : String) (tx : BatchTx) : ServerTx :=
  { user_id := uid
    amount := tx.amount
    type := tx.type
    description := tx.description.getD ""
    status := "synced"
    offline_id := tx.offline_id
    signature := tx.signature.getD "" }

/-- INSERT the row and append the id to `processed_ids` (the balance has
already been updated by the caller). -/
def insertTx (uid : String) (acc : BatchAcc) (tx : BatchTx) : BatchAcc :=
  { acc with
    store := acc.store ++ [mkServerTx uid tx]
    processed := acc.processed ++ [tx.offline_id] }

/-- One iteration of the routine's FOR loop, in source order: idempotency
check, signature check, debit balance check, then apply-and-insert. -/
def processTx (uid : String) (acc : BatchAcc) (tx : BatchTx) : BatchAcc :=
  if storeHasId acc.store tx.offline_id then
    { acc with processed := acc.processed ++ [tx.offline_id] }
  else if sigMissing tx.signature then
    { acc with failed := acc.failed ++ [(tx.offline_id, "Missing signature")] }
  else if tx.type = "debit" then
    if acc.bal < tx.amount then
      { acc with failed := acc.failed ++ [(tx.offline_id, "Insufficient balance")] }
    else
      insertTx uid { acc with bal := acc.bal - tx.amount } tx
  else
    insertTx uid { acc with bal := acc.bal + tx.amount } tx

/-- The `profiles` lookup `SELECT balance FROM profiles WHERE id = user_uuid`,
over the profile table modelled as an association list. -/
def lookupBalance (profiles : List (String × ℚ)) (uid : String) : Option ℚ :=
  (profiles.find? (fun p => p.1 = uid)).map (fun p => p.2)

/-- The final `UPDATE profiles SET balance = new_balance WHERE id = user_uuid`. -/
def updateBalance (profiles : List (String × ℚ)) (uid : String) (nb : ℚ) :
    List (String × ℚ) :=
  profiles.map (fun p => if p.1 = uid then (p.1, nb) else p)

/-- Result of one `process_offline_batch` call: the returned JSONB together
with the post-state of the `transactions` and `profiles` tables. -/
structure BatchOutcome where
  resp : BatchResponse
  store : List ServerTx
  profiles : List (String × ℚ)
  deriving Repr, DecidableEq

/-- `process_offline_batch(payload)`.  `authUid` is `auth.uid()` (none when the
caller is not authenticated); the two error paths return the error object with
empty arrays and `new_balance = 0` and leave both tables untouched; otherwise
the batch is folded over `processTx` in submitted order and the final running
balance is persisted. -/
def process_offline_batch (authUid : Option String)
    (profiles : List (String × ℚ)) (store : List ServerTx)
    (batch : List BatchTx) : BatchOutcome :=
  match authUid with
  | none =>
      { resp := { error := some "Not authenticated", processed_ids := [],
                  failed_ids := [], new_balance := 0 }
        store := store, profiles := profiles }
  | some uid =>
      match lookupBalance profiles uid with
      | none =>
          { resp := { error := some "Profile not found", processed_ids := [],
                      failed_ids := [], new_balance := 0 }
            store := store, profiles := profiles }
      | some bal =>
          let acc := batch.foldl (processTx uid)
            { store := store, processed := [], failed := [], bal := bal }
          { resp := { error := none, processed_ids := acc.processed,
                      failed_ids := acc.failed, new_balance := acc.bal }
            store := acc.store
            profiles := updateBalance profiles uid acc.bal }

/-! Derived summation notions used to state balance conservation.  The routine
treats every non-`debit` kind as a credit (the ELSE branch of the type test),
so the credit sum filters on `type ≠ "debit"`. -/

/-- Signed contribution of an accepted (inserted) row to the balance. -/
def signedAmount (t : ServerTx) : ℚ :=
  if t.type = "debit" then -t.amount else t.amount

/-- Net balance contribution of a list of accepted rows. -/
def signedSum (l : List ServerTx) : ℚ :=
  (l.map signedAmount).sum

/-- Sum of the amounts of the accepted debit rows of `l`. -/
def debitSum (l : List ServerTx) : ℚ :=
  ((l.filter (fun t => t.type = "debit")).map (fun t => t.amount)).sum

/-- Sum of the amounts of the accepted credit rows of `l` (any kind other
than `debit` is applied as a credit by the routine). -/
def creditSum (l : List ServerTx) : ℚ :=
  ((l.filter (fun t => ¬ t.type = "debit")).map (fun t => t.amount)).sum

/-! ## Client side: the Dexie store (`src/lib/db.ts`) and the sync engine
(`syncEngine.ts`) -/

/-- A row of the local `transactions` table.  `retry_count` and
`last_sync_attempt` are optional in the TypeScript interface (the code reads
them as `tx.retry_count || 0` and only ever writes `last_sync_attempt`
explicitly). -/
structure OfflineTransaction where
  offline_id : String
  user_id : String
  recipient_id : Option String
  amount : ℚ
  type : String
  description : String
  timestamp : Int
  sync_status : String
  signature : String
  retry_count : Option Nat
  last_sync_attempt : Option Int
  deriving Repr, DecidableEq

/-- A row of the local `wallet` table, keyed by `id` (the user id).
`pending_debits`, `pending_credits` and `last_sync_success` are optional:
`syncOfflineTransactions` stores a record built from only `id`,
`cached_balance`, `shadow_balance` and `last_updated`. -/
structure WalletState where
  id : String
  cached_balance : ℚ
  shadow_balance : ℚ
  pending_debits : Option ℚ
  pending_credits : Option ℚ
  last_updated : Int
  last_sync_success : Option Int
  deriving Repr, DecidableEq

/-- The local IndexedDB database: the two tables of `ResilientDB`. -/
structure LocalDB where
  transactions : List OfflineTransaction
  wallet : List WalletState
  deriving Repr, DecidableEq

/-- The `SyncResponse` the client reads off the RPC result.  `new_balance` is
optional on the client (the code guards on `response.new_balance !==
undefined`). -/
structure SyncResponse where
  error : Option String
  processed_ids : List String
  failed_ids : List (String × String)
  new_balance : Option ℚ
  deriving Repr, DecidableEq

/-- `getPendingTransactions(userId)`: rows of the user whose `sync_status` is
exactly `'pending'`. -/
def getPendingTransactions (userId : String) (db : LocalDB) :
    List OfflineTransaction :=
  db.transactions.filter (fun tx => tx.user_id = userId ∧ tx.sync_status = "pending")

/-- `getWalletState(userId)`: primary-key lookup in the `wallet` table. -/
def getWalletState (userId : String) (db : LocalDB) : Option WalletState :=
  db.wallet.find? (fun w => w.id = userId)

/-- `updateWalletState(state)`: `db.wallet.put(state)` replaces the whole row
with key `state.id`, or inserts it when absent. -/
def updateWalletState (state : WalletState) (db : LocalDB) : LocalDB :=
  if db.wallet.any (fun w => w.id = state.id) then
    { db with wallet := db.wallet.map (fun w => if w.id = state.id then state else w) }
  else
    { db with wallet := db.wallet ++ [state] }

/-- `markTransactionsSynced(offlineIds)`: set `sync_status` to `'synced'` on
every row whose `offline_id` is in the list. -/
def markTransactionsSynced (offlineIds : List String) (db : LocalDB) : LocalDB :=
  { db with transactions := db.transactions.map (fun tx =>
      if tx.offline_id ∈ offlineIds then { tx with sync_status := "synced" } else tx) }

/-- `updateTransactionStatus(offlineId, status, incrementRetry)`: overwrite
`sync_status` and `last_sync_attempt` on every row with this `offline_id`;
when `incrementRetry` is set and a row is found, also set `retry_count` to
`(tx.retry_count || 0) + 1` computed from the first matching row.  `now` is
the `Date.now()` reading of the call. -/
def updateTransactionStatus (offlineId : String) (status : String)
    (incrementRetry : Bool) (now : Int) (db : LocalDB) : LocalDB :=
  let found := db.transactions.find? (fun tx => tx.offline_id = offlineId)
  let newRetry : Option Nat :=
    if incrementRetry then
      match found with
      | some tx => some (tx.retry_count.getD 0 + 1)
      | none => none
    else none
  { db with transactions := db.transactions.map (fun tx =>
      if tx.offline_id = offlineId then
        { tx with
          sync_status := status
          last_sync_attempt := some now
          retry_count := match newRetry with
            | some n => some n
            | none => tx.retry_count }
      else tx) }

/-- `clearOldSyncedTransactions(userId, daysOld)`: delete the user's rows that
are `'synced'` and strictly older than `now - daysOld` days. -/
def clearOldSyncedTransactions (userId : String) (daysOld : Int) (now : Int)
    (db : LocalDB) : LocalDB :=
  let cutoffTime := now - daysOld * 24 * 60 * 60 * 1000
  { db with transactions := db.transactions.filter (fun tx =>
      ¬(tx.user_id = userId ∧ tx.sync_status = "synced" ∧ tx.timestamp < cutoffTime)) }

/-- `cleanupOldTransactions(userId, daysOld)`: same deletion as
`clearOldSyncedTransactions`, additionally returning the number of deleted
rows (Dexie's `delete()` resolves to the count). -/
def cleanupOldTransactions (userId : String) (daysOld : Int) (now : Int)
    (db : LocalDB) : Nat × LocalDB :=
  let cutoffTime := now - daysOld * 24 * 60 * 60 * 1000
  ((db.transactions.filter (fun tx =>
      tx.user_id = userId ∧ tx.sync_status = "synced" ∧ tx.timestamp < cutoffTime)).length,
   { db with transactions := db.transactions.filter (fun tx =>
      ¬(tx.user_id = userId ∧ tx.sync_status = "synced" ∧ tx.timestamp < cutoffTime)) })

/-- `checkWalletStaleness(userId)`: `true` when there is no wallet row, when
`last_sync_success` is falsy (absent or `0`), or when more than 24 hours have
elapsed since it. -/
def checkWalletStaleness (userId : String) (now : Int) (db : LocalDB) : Bool :=
  match getWalletState userId db with
  | none => true
  | some wallet =>
      match wallet.last_sync_success with
      | none => true
      | some s =>
          if s = 0 then true
          else decide ((now - s : ℚ) / (1000 * 60 * 60) > 24)

/-- `updateWalletPendingAmounts(userId)`: recompute the pending aggregates
from `getPendingTransactions` (status `'pending'` rows only) and store
`shadow_balance = cached_balance - pending_debits + pending_credits`; a user
without a wallet row is left untouched. -/
def updateWalletPendingAmounts (userId : String) (db : LocalDB) : LocalDB :=
  let pendingTxs := getPendingTransactions userId db
  let pending_debits :=
    (pendingTxs.filter (fun tx => tx.type = "debit")).foldl (fun sum tx => sum + tx.amount) 0
  let pending_credits :=
    (pendingTxs.filter (fun tx => tx.type = "credit")).foldl (fun sum tx => sum + tx.amount) 0
  match getWalletState userId db with
  | some wallet =>
      updateWalletState
        { wallet with
          pending_debits := some pending_debits
          pending_credits := some pending_credits
          shadow_balance := wallet.cached_balance - pending_debits + pending_credits } db
  | none => db

/-- `syncOfflineTransactions(userId)`, from the collection step onward (the
connectivity and configuration guards return `null` before touching any
state and are outside this model).  The remote RPC is abstracted as the
function `server` from the submitted batch to the response it delivers; `now`
is the `Date.now()` reading used for `last_updated`.  An empty pending set
returns the trivial response without contacting the server; otherwise the
processed ids are marked synced (skipped when the list is empty) and, when the
response carries a `new_balance`, the wallet row is replaced by a record
holding only `id`, `cached_balance`, `shadow_balance` and `last_updated`. -/
def syncOfflineTransactions (userId : String)
    (server : List OfflineTransaction → SyncResponse) (now : Int)
    (db : LocalDB) : SyncResponse × LocalDB :=
  let pending := getPendingTransactions userId db
  if pending.length = 0 then
    ({ error := none, processed_ids := [], failed_ids := [], new_balance := some 0 }, db)
  else
    let response := server pending
    let db1 :=
      if response.processed_ids.length > 0 then
        markTransactionsSynced response.processed_ids db
      else db
    let db2 :=
      match response.new_balance with
      | some nb =>
          updateWalletState
            { id := userId, cached_balance := nb, shadow_balance := nb,
              pending_debits := none, pending_credits := none,
              last_updated := now, last_sync_success := none } db1
      | none => db1
    (response, db2)

/-! ## Concrete fixtures used by counterexamples and witnesses -/

/-- A pending debit of 100 for user "u". -/
def txPending1 : OfflineTransaction :=
  { offline_id := "t1", user_id := "u", recipient_id := none, amount := 100,
    type := "debit", description := "", timestamp := 0,
    sync_status := "pending", signature := "s", retry_count := none,
    last_sync_attempt := none }

/-- A failed debit of 100 for user "u". -/
def txFailed1 : OfflineTransaction :=
  { offline_id := "f1", user_id := "u", recipient_id := none, amount := 100,
    type := "debit", description := "", timestamp := 0,
    sync_status := "failed", signature := "s", retry_count := none,
    last_sync_attempt := none }

/-- A fully populated wallet row for user "u". -/
def walletU0 : WalletState :=
  { id := "u", cached_balance := 500, shadow_balance := 400,
    pending_debits := some 100, pending_credits := some 0,
    last_updated := 0, last_sync_success := some 99 }

/-- A bare wallet row for user "u" with balance 1000. -/
def walletU1 : WalletState :=
  { id := "u", cached_balance := 1000, shadow_balance := 1000,
    pending_debits := none, pending_credits := none, last_updated := 0,
    last_sync_success := none }

def dbOnePending : LocalDB :=
  { transactions := [txPending1], wallet := [walletU0] }

def dbOnePendingNoWallet : LocalDB :=
  { transactions := [txPending1], wallet := [] }

def dbOneFailed : LocalDB :=
  { transactions := [txFailed1], wallet := [walletU1] }

/-- A server delivering the authentication-error response shape. -/
def srvAuthError : List OfflineTransaction → SyncResponse :=
  fun _ => { error := some "Not authenticated", processed_ids := [],
             failed_ids := [], new_balance := some 0 }

/-- A server rejecting "t1" with "Insufficient balance". -/
def srvRejectT1 : List OfflineTransaction → SyncResponse :=
  fun _ => { error := none, processed_ids := [],
             failed_ids := [("t1", "Insufficient balance")],
             new_balance := some 50 }

/-- A server accepting "t1" and reporting balance 75. -/
def srvAcceptT1 : List OfflineTransaction → SyncResponse :=
  fun _ => { error := none, processed_ids := ["t1"], failed_ids := [],
             new_balance := some 75 }

/-! ## Lemmas about the reconciliation fold -/

theorem signedSum_append (a b : List ServerTx) :
    signedSum (a ++ b) = signedSum a + signedSum b := by
  simp [signedSum]

theorem signedSum_eq_creditSum_sub_debitSum (l : List ServerTx) :
    signedSum l = creditSum l - debitSum l := by
  induction l with
  | nil => simp [signedSum, creditSum, debitSum]
  | cons t ts ih =>
      by_cases h : t.type = "debit"
      · simp only [signedSum, creditSum, debitSum, List.map_cons, List.sum_cons,
          List.filter_cons, h, signedAmount] at ih ⊢
        simp only [decide_eq_true_eq] at ih ⊢
        simp [h, ih]
        ring
      · simp only [signedSum, creditSum, debitSum, List.map_cons, List.sum_cons,
          List.filter_cons, signedAmount] at ih ⊢
        simp [h, ih]
        ring

/-- One loop iteration appends some rows (none or one) to the store, appends
some entries (none or one) to the failed list, and changes the running balance
by exactly the signed sum of the appended rows. -/
theorem processTx_delta (uid : String) (acc : BatchAcc) (tx : BatchTx) :
    ∃ d f, (processTx uid acc tx).store = acc.store ++ d ∧
      (processTx uid acc tx).failed = acc.failed ++ f ∧
      (processTx uid acc tx).bal = acc.bal + signedSum d := by
  unfold processTx
  by_cases hdup : storeHasId acc.store tx.offline_id
  · exact ⟨[], [], by simp [hdup, signedSum]⟩
  · by_cases hsig : sigMissing tx.signature
    · exact ⟨[], [(tx.offline_id, "Missing signature")], by simp [hdup, hsig, signedSum]⟩
    · by_cases hdeb : tx.type = "debit"
      · by_cases hbal : acc.bal < tx.amount
        · exact ⟨[], [(tx.offline_id, "Insufficient balance")],
            by simp [hdup, hsig, hdeb, hbal, signedSum]⟩
        · refine ⟨[mkServerTx uid tx], [], ?_⟩
          simp [hdup, hsig, hdeb, hbal, insertTx, signedSum, signedAmount, mkServerTx]
          ring
      · refine ⟨[mkServerTx uid tx], [], ?_⟩
        simp [hdup, hsig, hdeb, insertTx, signedSum, signedAmount, mkServerTx]

/-- Folding the loop over a batch extends the store and the failed list and
moves the balance by the signed sum of the newly inserted rows. -/
theorem foldl_processTx_delta (uid : String) (batch : List BatchTx) :
    ∀ acc : BatchAcc, ∃ d f,
      (batch.foldl (processTx uid) acc).store = acc.store ++ d ∧
      (batch.foldl (processTx uid) acc).failed = acc.failed ++ f ∧
      (batch.foldl (processTx uid) acc).bal = acc.bal + signedSum d := by
  induction batch with
  | nil => intro acc; exact ⟨[], [], by simp [signedSum]⟩
  | cons tx rest ih =>
      intro acc
      obtain ⟨d0, f0, hs0, hf0, hb0⟩ := processTx_delta uid acc tx
      obtain ⟨d1, f1, hs1, hf1, hb1⟩ := ih (processTx uid acc tx)
      refine ⟨d0 ++ d1, f0 ++ f1, ?_, ?_, ?_⟩
      · simp [List.foldl_cons, hs1, hs0]
      · simp [List.foldl_cons, hf1, hf0]
      · simp [List.foldl_cons, hb1, hb0, signedSum_append]
        ring

theorem storeHasId_append (s d : List ServerTx) (oid : String)
    (h : storeHasId s oid = true) : storeHasId (s ++ d) oid = true := by
  simp only [storeHasId, List.filter_append, List.length_append,
    decide_eq_true_eq, Nat.lt_iff_add_one_le] at h ⊢
  omega

/-- A loop iteration that adds nothing to the failed list leaves the
transaction's `offline_id` present in the resulting store: it was either an
idempotent duplicate or freshly inserted. -/
theorem storeHasId_snoc (s : List ServerTx) (row : ServerTx) :
    storeHasId (s ++ [row]) row.offline_id = true := by
  simp [storeHasId, List.filter_append]

theorem processTx_failed_eq (uid : String) (acc : BatchAcc) (tx : BatchTx)
    (h : (processTx uid acc tx).failed = acc.failed) :
    storeHasId (processTx uid acc tx).store tx.offline_id = true := by
  unfold processTx at h ⊢
  by_cases hdup : storeHasId acc.store tx.offline_id = true
  · rw [if_pos hdup]
    exact hdup
  · rw [if_neg hdup] at h ⊢
    by_cases hsig : sigMissing tx.signature = true
    · rw [if_pos hsig] at h
      simp at h
    · rw [if_neg hsig] at h ⊢
      by_cases hdeb : tx.type = "debit"
      · rw [if_pos hdeb] at h ⊢
        by_cases hbal : acc.bal < tx.amount
        · rw [if_pos hbal] at h
          simp at h
        · rw [if_neg hbal]
          exact storeHasId_snoc acc.store (mkServerTx uid tx)
      · rw [if_neg hdeb]
        exact storeHasId_snoc acc.store (mkServerTx uid tx)

/-- If a whole batch runs without adding anything to the failed list, every
transaction of the batch ends up present (by `offline_id`) in the final
store. -/
theorem mem_store_of_no_failures (uid : String) (batch : List BatchTx) :
    ∀ acc : BatchAcc, (batch.foldl (processTx uid) acc).failed = acc.failed →
      ∀ tx ∈ batch,
        storeHasId (batch.foldl (processTx uid) acc).store tx.offline_id = true := by
  induction batch with
  | nil => intro acc _ tx htx; simp at htx
  | cons t rest ih =>
      intro acc hfail tx htx
      have hstep := processTx_delta uid acc t
      obtain ⟨d0, f0, hs0, hf0, hb0⟩ := hstep
      obtain ⟨d1, f1, hs1, hf1, hb1⟩ := foldl_processTx_delta uid rest (processTx uid acc t)
      simp only [List.foldl_cons] at hfail ⊢
      have hf0nil : f0 = [] ∧ f1 = [] := by
        rw [hf1, hf0] at hfail
        constructor
        · rcases f0 with _ | ⟨x, xs⟩
          · rfl
          · exfalso
            have := congrArg List.length hfail
            simp at this
        · rcases f1 with _ | ⟨x, xs⟩
          · rfl
          · exfalso
            have := congrArg List.length hfail
            simp at this
      have hstepfail : (processTx uid acc t).failed = acc.failed := by
        rw [hf0, hf0nil.1, List.append_nil]
      rcases List.mem_cons.mp htx with heq | hmem
      · subst heq
        have hin := processTx_failed_eq uid acc tx hstepfail
        rw [hs1]
        exact storeHasId_append _ _ _ hin
      · exact ih (processTx uid acc t)
          (by rw [hf1, hstepfail, hf0nil.2, List.append_nil]) tx hmem

/-- Running a batch whose every `offline_id` is already present in the store
only appends the ids to `processed_ids`: the store, the failed list and the
balance are untouched. -/
theorem foldl_processTx_all_dup (uid : String) (batch : List BatchTx) :
    ∀ acc : BatchAcc, (∀ tx ∈ batch, storeHasId acc.store tx.offline_id = true) →
      batch.foldl (processTx uid) acc =
        { acc with processed := acc.processed ++ batch.map (fun tx => tx.offline_id) } := by
  induction batch with
  | nil => intro acc _; simp
  | cons t rest ih =>
      intro acc hall
      have hdup : storeHasId acc.store t.offline_id = true :=
        hall t (List.mem_cons_self t rest)
      have hstep : processTx uid acc t =
          { acc with processed := acc.processed ++ [t.offline_id] } := by
        unfold processTx
        rw [if_pos hdup]
      simp only [List.foldl_cons, hstep]
      rw [ih { acc with processed := acc.processed ++ [t.offline_id] }
        (fun tx htx => hall tx (List.mem_cons_of_mem t htx))]
      simp

theorem lookupBalance_updateBalance (profiles : List (String × ℚ)) (uid : String)
    (nb : ℚ) (h : (lookupBalance profiles uid).isSome) :
    lookupBalance (updateBalance profiles uid nb) uid = some nb := by
  induction profiles with
  | nil => simp [lookupBalance] at h
  | cons p ps ih =>
      by_cases hp : p.1 = uid
      · simp [lookupBalance, updateBalance, List.find?_cons, hp]
      · simp only [lookupBalance, updateBalance, List.map_cons, if_neg hp] at h ⊢
        rw [List.find?_cons_of_neg _ (by simpa using hp)] at h ⊢
        exact ih h

/-! ## Claims about the Reconciliation Service -/

/-- C1.  For every batch applied for a user with an existing profile, the
returned `new_balance` is the starting authoritative balance plus the sum of
the amounts of the accepted (inserted) credit entries minus the sum of the
amounts of the accepted debit entries; rejected entries and idempotent
duplicates are not inserted, so they contribute zero. -/
theorem balance_conservation (uid : String) (profiles : List (String × ℚ))
    (store : List ServerTx) (batch : List BatchTx) (b : ℚ)
    (h : lookupBalance profiles uid = some b) :
    (process_offline_batch (some uid) profiles store batch).store =
      store ++ (process_offline_batch (some uid) profiles store batch).store.drop store.length ∧
    (process_offline_batch (some uid) profiles store batch).resp.new_balance =
      b + creditSum ((process_offline_batch (some uid) profiles store batch).store.drop store.length)
        - debitSum ((process_offline_batch (some uid) profiles store batch).store.drop store.length) := by
  obtain ⟨d, f, hs, hf, hb⟩ := foldl_processTx_delta uid batch
    { store := store, processed := [], failed := [], bal := b }
  simp only [process_offline_batch, h]
  constructor
  · rw [hs, List.drop_left]
  · rw [hs, List.drop_left, hb, signedSum_eq_creditSum_sub_debitSum]
    ring

/-- Witness for C1 at a concrete input: one credit of 100 against balance 50. -/
theorem balance_conservation_witness :
    lookupBalance [("u", (50 : ℚ))] "u" = some 50 ∧
    ((process_offline_batch (some "u") [("u", (50 : ℚ))] []
        [{ offline_id := "c1", amount := 100, type := "credit",
           signature := some "s", description := some "", timestamp := 0 }]).store =
      [] ++ (process_offline_batch (some "u") [("u", (50 : ℚ))] []
        [{ offline_id := "c1", amount := 100, type := "credit",
           signature := some "s", description := some "", timestamp := 0 }]).store.drop
          ([] : List ServerTx).length ∧
    (process_offline_batch (some "u") [("u", (50 : ℚ))] []
        [{ offline_id := "c1", amount := 100, type := "credit",
           signature := some "s", description := some "", timestamp := 0 }]).resp.new_balance =
      50 + creditSum ((process_offline_batch (some "u") [("u", (50 : ℚ))] []
        [{ offline_id := "c1", amount := 100, type := "credit",
           signature := some "s", description := some "", timestamp := 0 }]).store.drop
          ([] : List ServerTx).length)
        - debitSum ((process_offline_batch (some "u") [("u", (50 : ℚ))] []
        [{ offline_id := "c1", amount := 100, type := "credit",
           signature := some "s", description := some "", timestamp := 0 }]).store.drop
          ([] : List ServerTx).length)) :=
  ⟨rfl, balance_conservation "u" [("u", 50)] [] _ 50 rfl⟩

/-- C2.  Order sensitivity of the sequential admission: `[debit 100, credit
100]` against balance 50 rejects the debit with reason "Insufficient balance"
and accepts the credit, ending at 150; `[credit 100, debit 100]` against the
same balance accepts both, ending at 50. -/
theorem order_sensitivity :
    (process_offline_batch (some "u") [("u", 50)] []
      [ { offline_id := "d1", amount := 100, type := "debit",
          signature := some "s", description := some "", timestamp := 0 },
        { offline_id := "c1", amount := 100, type := "credit",
          signature := some "s", description := some "", timestamp := 0 } ]).resp =
      { error := none, processed_ids := ["c1"],
        failed_ids := [("d1", "Insufficient balance")], new_balance := 150 } ∧
    (process_offline_batch (some "u") [("u", 50)] []
      [ { offline_id := "c1", amount := 100, type := "credit",
          signature := some "s", description := some "", timestamp := 0 },
        { offline_id := "d1", amount := 100, type := "debit",
          signature := some "s", description := some "", timestamp := 0 } ]).resp =
      { error := none, processed_ids := ["c1", "d1"],
        failed_ids := [], new_balance := 50 } := by
  constructor <;>
    norm_num +decide [process_offline_batch, processTx, insertTx, mkServerTx,
      storeHasId, sigMissing, lookupBalance]

/-- C3, counterexample.  Replaying a batch is not idempotent when the first
application rejected an entry: for the batch `[debit 100, credit 100]` on
balance 50, the first application rejects the debit and ends at 150, but the
second application accepts the previously rejected debit against the new
balance, inserting a new authoritative row and returning 50. -/
theorem batch_idempotency_counterexample :
    ¬((process_offline_batch (some "u")
        (process_offline_batch (some "u") [("u", 50)] []
          [ { offline_id := "d1", amount := 100, type := "debit",
              signature := some "s", description := some "", timestamp := 0 },
            { offline_id := "c1", amount := 100, type := "credit",
              signature := some "s", description := some "", timestamp := 0 } ]).profiles
        (process_offline_batch (some "u") [("u", 50)] []
          [ { offline_id := "d1", amount := 100, type := "debit",
              signature := some "s", description := some "", timestamp := 0 },
            { offline_id := "c1", amount := 100, type := "credit",
              signature := some "s", description := some "", timestamp := 0 } ]).store
        [ { offline_id := "d1", amount := 100, type := "debit",
            signature := some "s", description := some "", timestamp := 0 },
          { offline_id := "c1", amount := 100, type := "credit",
            signature := some "s", description := some "", timestamp := 0 } ]).resp.new_balance =
      (process_offline_batch (some "u") [("u", 50)] []
        [ { offline_id := "d1", amount := 100, type := "debit",
            signature := some "s", description := some "", timestamp := 0 },
          { offline_id := "c1", amount := 100, type := "credit",
            signature := some "s", description := some "", timestamp := 0 } ]).resp.new_balance ∧
      (process_offline_batch (some "u")
        (process_offline_batch (some "u") [("u", 50)] []
          [ { offline_id := "d1", amount := 100, type := "debit",
              signature := some "s", description := some "", timestamp := 0 },
            { offline_id := "c1", amount := 100, type := "credit",
              signature := some "s", description := some "", timestamp := 0 } ]).profiles
        (process_offline_batch (some "u") [("u", 50)] []
          [ { offline_id := "d1", amount := 100, type := "debit",
              signature := some "s", description := some "", timestamp := 0 },
            { offline_id := "c1", amount := 100, type := "credit",
              signature := some "s", description := some "", timestamp := 0 } ]).store
        [ { offline_id := "d1", amount := 100, type := "debit",
            signature := some "s", description := some "", timestamp := 0 },
          { offline_id := "c1", amount := 100, type := "credit",
            signature := some "s", description := some "", timestamp := 0 } ]).store =
      (process_offline_batch (some "u") [("u", 50)] []
        [ { offline_id := "d1", amount := 100, type := "debit",
            signature := some "s", description := some "", timestamp := 0 },
          { offline_id := "c1", amount := 100, type := "credit",
            signature := some "s", description := some "", timestamp := 0 } ]).store) := by
  norm_num +decide [process_offline_batch, processTx, insertTx, mkServerTx,
    storeHasId, sigMissing, lookupBalance, updateBalance]

/-- C3, amended.  When the first application of a batch rejects no entry
(`failed_ids` empty), replaying the identical batch is idempotent: the second
application returns the same `new_balance`, creates no additional
authoritative rows, and reports every entry of the batch in
`processed_ids`. -/
theorem batch_idempotency_of_clean (uid : String) (profiles : List (String × ℚ))
    (store : List ServerTx) (batch : List BatchTx) (b : ℚ)
    (h : lookupBalance profiles uid = some b)
    (hclean : (process_offline_batch (some uid) profiles store batch).resp.failed_ids = []) :
    (process_offline_batch (some uid)
        (process_offline_batch (some uid) profiles store batch).profiles
        (process_offline_batch (some uid) profiles store batch).store
        batch).resp.new_balance =
      (process_offline_batch (some uid) profiles store batch).resp.new_balance ∧
    (process_offline_batch (some uid)
        (process_offline_batch (some uid) profiles store batch).profiles
        (process_offline_batch (some uid) profiles store batch).store
        batch).store =
      (process_offline_batch (some uid) profiles store batch).store ∧
    (process_offline_batch (some uid)
        (process_offline_batch (some uid) profiles store batch).profiles
        (process_offline_batch (some uid) profiles store batch).store
        batch).resp.processed_ids =
      batch.map (fun tx => tx.offline_id) := by
  have hiso : (lookupBalance profiles uid).isSome := by rw [h]; rfl
  simp only [process_offline_batch, h] at hclean ⊢
  have hlb2 := lookupBalance_updateBalance profiles uid
    (batch.foldl (processTx uid)
      { store := store, processed := [], failed := [], bal := b }).bal hiso
  simp only [hlb2]
  have hmem : ∀ tx ∈ batch,
      storeHasId (batch.foldl (processTx uid)
        { store := store, processed := [], failed := [], bal := b }).store
        tx.offline_id = true :=
    mem_store_of_no_failures uid batch
      { store := store, processed := [], failed := [], bal := b } hclean
  rw [foldl_processTx_all_dup uid batch
    { store := (batch.foldl (processTx uid)
        { store := store, processed := [], failed := [], bal := b }).store,
      processed := [],
      failed := [],
      bal := (batch.foldl (processTx uid)
        { store := store, processed := [], failed := [], bal := b }).bal }
    hmem]
  simp

/-- Witness for C3 (amended) at a concrete input: a single signed credit whose
first application rejects nothing. -/
theorem batch_idempotency_of_clean_witness :
    lookupBalance [("u", (50 : ℚ))] "u" = some 50 ∧
    (process_offline_batch (some "u") [("u", (50 : ℚ))] []
      [{ offline_id := "c1", amount := 100, type := "credit",
         signature := some "s", description := some "", timestamp := 0 }]).resp.failed_ids = [] ∧
    ((process_offline_batch (some "u")
        (process_offline_batch (some "u") [("u", (50 : ℚ))] []
          [{ offline_id := "c1", amount := 100, type := "credit",
             signature := some "s", description := some "", timestamp := 0 }]).profiles
        (process_offline_batch (some "u") [("u", (50 : ℚ))] []
          [{ offline_id := "c1", amount := 100, type := "credit",
             signature := some "s", description := some "", timestamp := 0 }]).store
        [{ offline_id := "c1", amount := 100, type := "credit",
           signature := some "s", description := some "", timestamp := 0 }]).resp.new_balance =
      (process_offline_batch (some "u") [("u", (50 : ℚ))] []
        [{ offline_id := "c1", amount := 100, type := "credit",
           signature := some "s", description := some "", timestamp := 0 }]).resp.new_balance ∧
    (process_offline_batch (some "u")
        (process_offline_batch (some "u") [("u", (50 : ℚ))] []
          [{ offline_id := "c1", amount := 100, type := "credit",
             signature := some "s", description := some "", timestamp := 0 }]).profiles
        (process_offline_batch (some "u") [("u", (50 : ℚ))] []
          [{ offline_id := "c1", amount := 100, type := "credit",
             signature := some "s", description := some "", timestamp := 0 }]).store
        [{ offline_id := "c1", amount := 100, type := "credit",
           signature := some "s", description := some "", timestamp := 0 }]).store =
      (process_offline_batch (some "u") [("u", (50 : ℚ))] []
        [{ offline_id := "c1", amount := 100, type := "credit",
           signature := some "s", description := some "", timestamp := 0 }]).store ∧
    (process_offline_batch (some "u")
        (process_offline_batch (some "u") [("u", (50 : ℚ))] []
          [{ offline_id := "c1", amount := 100, type := "credit",
             signature := some "s", description := some "", timestamp := 0 }]).profiles
        (process_offline_batch (some "u") [("u", (50 : ℚ))] []
          [{ offline_id := "c1", amount := 100, type := "credit",
             signature := some "s", description := some "", timestamp := 0 }]).store
        [{ offline_id := "c1", amount := 100, type := "credit",
           signature := some "s", description := some "", timestamp := 0 }]).resp.processed_ids =
      [({ offline_id := "c1", amount := (100 : ℚ), type := "credit",
          signature := some "s", description := some "", timestamp := 0 } : BatchTx)].map
        (fun tx => tx.offline_id)) :=
  ⟨rfl,
   by norm_num +decide [process_offline_batch, processTx, insertTx, mkServerTx,
        storeHasId, sigMissing, lookupBalance],
   batch_idempotency_of_clean "u" [("u", 50)] [] _ 50 rfl
     (by norm_num +decide [process_offline_batch, processTx, insertTx, mkServerTx,
           storeHasId, sigMissing, lookupBalance])⟩

/-- C9, counterexample.  A fresh, signed entry with a non-positive amount is
not always accepted: against profile balance 0, the batch
`[credit -100, debit -50]` drives the running balance to -100, and the debit
of -50 (fresh id, non-empty signature, amount ≤ 0) is then rejected with
"Insufficient balance" instead of being processed. -/
theorem no_positivity_check_counterexample :
    (process_offline_batch (some "u") [("u", 0)] []
      [ { offline_id := "x1", amount := -100, type := "credit",
          signature := some "s", description := some "", timestamp := 0 },
        { offline_id := "x2", amount := -50, type := "debit",
          signature := some "s", description := some "", timestamp := 0 } ]).resp.failed_ids =
      [("x2", "Insufficient balance")] ∧
    "x2" ∉ (process_offline_batch (some "u") [("u", 0)] []
      [ { offline_id := "x1", amount := -100, type := "credit",
          signature := some "s", description := some "", timestamp := 0 },
        { offline_id := "x2", amount := -50, type := "debit",
          signature := some "s", description := some "", timestamp := 0 } ]).resp.processed_ids := by
  norm_num +decide [process_offline_batch, processTx, insertTx, mkServerTx,
    storeHasId, sigMissing, lookupBalance]

/-- C9, amended.  `process_offline_batch` performs no positivity check on
amounts: an entry with a fresh `offline_id`, a non-empty signature and an
amount ≤ 0 is accepted and reported processed whenever the running balance is
at least the amount — which always holds when the running balance is
non-negative — and a debit with a negative amount then passes the
insufficient-balance test and does not decrease (strictly increases, when
negative) the running balance. -/
theorem no_positivity_check (uid : String) (acc : BatchAcc) (tx : BatchTx)
    (s : String) (hfresh : storeHasId acc.store tx.offline_id = false)
    (hsig : tx.signature = some s) (hs : ¬ s = "")
    (hamt : tx.amount ≤ 0) (hbal : 0 ≤ acc.bal) :
    processTx uid acc tx =
      insertTx uid
        { acc with bal := if tx.type = "debit" then acc.bal - tx.amount
                          else acc.bal + tx.amount } tx ∧
    (processTx uid acc tx).processed = acc.processed ++ [tx.offline_id] ∧
    (tx.type = "debit" → acc.bal ≤ (processTx uid acc tx).bal) := by
  have hnb : ¬ acc.bal < tx.amount := not_lt.mpr (le_trans hamt hbal)
  have hmain : processTx uid acc tx =
      insertTx uid
        { acc with bal := if tx.type = "debit" then acc.bal - tx.amount
                          else acc.bal + tx.amount } tx := by
    unfold processTx
    rw [if_neg (by simp [hfresh]), if_neg (by simp [sigMissing, hsig, hs])]
    by_cases hdeb : tx.type = "debit"
    · rw [if_pos hdeb, if_neg hnb, if_pos hdeb]
    · rw [if_neg hdeb, if_neg hdeb]
  refine ⟨hmain, ?_, ?_⟩
  · rw [hmain]
    simp [insertTx]
  · intro hdeb
    rw [hmain]
    simp only [insertTx, if_pos hdeb]
    linarith

/-- Witness for C9 (amended): a debit of -50 against balance 0 is accepted and
raises the balance to 50. -/
theorem no_positivity_check_witness :
    storeHasId ([] : List ServerTx) "x2" = false ∧
    ({ offline_id := "x2", amount := (-50 : ℚ), type := "debit",
       signature := some "s", description := some "", timestamp := 0 } : BatchTx).signature
      = some "s" ∧
    ¬ "s" = "" ∧ (-50 : ℚ) ≤ 0 ∧ (0 : ℚ) ≤ 0 ∧
    (processTx "u" { store := [], processed := [], failed := [], bal := 0 }
        { offline_id := "x2", amount := -50, type := "debit",
          signature := some "s", description := some "", timestamp := 0 } =
      insertTx "u"
        { store := [], processed := [], failed := [],
          bal := if ({ offline_id := "x2", amount := (-50 : ℚ), type := "debit",
                       signature := some "s", description := some "",
                       timestamp := 0 } : BatchTx).type = "debit"
                 then 0 - (-50 : ℚ) else 0 + (-50 : ℚ) }
        { offline_id := "x2", amount := -50, type := "debit",
          signature := some "s", description := some "", timestamp := 0 } ∧
    (processTx "u" { store := [], processed := [], failed := [], bal := 0 }
        { offline_id := "x2", amount := -50, type := "debit",
          signature := some "s", description := some "", timestamp := 0 }).processed =
      [] ++ ["x2"] ∧
    (({ offline_id := "x2", amount := (-50 : ℚ), type := "debit",
        signature := some "s", description := some "", timestamp := 0 } : BatchTx).type
        = "debit" →
      (0 : ℚ) ≤ (processTx "u" { store := [], processed := [], failed := [], bal := 0 }
        { offline_id := "x2", amount := -50, type := "debit",
          signature := some "s", description := some "", timestamp := 0 }).bal)) :=
  ⟨rfl, rfl, by decide, by norm_num, le_refl 0,
   no_positivity_check "u" { store := [], processed := [], failed := [], bal := 0 }
     { offline_id := "x2", amount := -50, type := "debit",
       signature := some "s", description := some "", timestamp := 0 }
     "s" rfl rfl (by decide) (by norm_num) (le_refl 0)⟩

/-! ## Lemmas about the local store -/

theorem updateWalletState_transactions (state : WalletState) (db : LocalDB) :
    (updateWalletState state db).transactions = db.transactions := by
  unfold updateWalletState
  split <;> rfl

theorem find?_map_put (l : List WalletState) (s : WalletState)
    (h : l.any (fun w => w.id = s.id) = true) :
    (l.map (fun w => if w.id = s.id then s else w)).find? (fun w => w.id = s.id) =
      some s := by
  induction l with
  | nil => simp at h
  | cons w ws ih =>
      by_cases hw : w.id = s.id
      · simp [hw]
      · simp only [List.any_cons, Bool.or_eq_true, decide_eq_true_eq] at h
        rcases h with h | h
        · exact absurd h hw
        · simp only [List.map_cons, if_neg hw]
          rw [List.find?_cons_of_neg _ (by simpa using hw)]
          exact ih h

theorem find?_append_self (l : List WalletState) (s : WalletState)
    (h : l.any (fun w => w.id = s.id) = false) :
    (l ++ [s]).find? (fun w => w.id = s.id) = some s := by
  induction l with
  | nil => simp
  | cons w ws ih =>
      simp only [List.any_cons, Bool.or_eq_false_iff, decide_eq_false_iff_not] at h
      rw [List.cons_append, List.find?_cons_of_neg _ (by simpa using h.1)]
      exact ih (by simpa using h.2)

/-- After a `put`, the wallet row for the stored record's key is exactly the
stored record. -/
theorem getWalletState_updateWalletState (state : WalletState) (db : LocalDB) :
    getWalletState state.id (updateWalletState state db) = some state := by
  unfold getWalletState updateWalletState
  by_cases h : db.wallet.any (fun w => w.id = state.id)
  · rw [if_pos h]
    exact find?_map_put db.wallet state h
  · rw [if_neg h]
    exact find?_append_self db.wallet state (Bool.not_eq_true _ ▸ eq_false_of_ne_true h)

/-- Variant of `getWalletState_updateWalletState` stated at an arbitrary key
equal to the stored record's `id`. -/
theorem getWalletState_updateWalletState_of_id (state : WalletState)
    (db : LocalDB) (uid : String) (h : state.id = uid) :
    getWalletState uid (updateWalletState state db) = some state :=
  h ▸ getWalletState_updateWalletState state db

/-- `find?` by `offline_id` commutes with an update that only rewrites rows
with that id and preserves the id itself. -/
theorem find?_map_update (l : List OfflineTransaction) (oid : String)
    (u : OfflineTransaction → OfflineTransaction)
    (hu : ∀ t, (u t).offline_id = t.offline_id) :
    (l.map (fun t => if t.offline_id = oid then u t else t)).find?
        (fun t => t.offline_id = oid) =
      (l.find? (fun t => t.offline_id = oid)).map u := by
  induction l with
  | nil => simp
  | cons t ts ih =>
      by_cases ht : t.offline_id = oid
      · rw [List.map_cons, if_pos ht,
          List.find?_cons_of_pos _ (by simp [hu, ht]),
          List.find?_cons_of_pos _ (by simp [ht])]
        rfl
      · rw [List.map_cons, if_neg ht,
          List.find?_cons_of_neg _ (by simpa using ht),
          List.find?_cons_of_neg _ (by simpa using ht)]
        exact ih

theorem foldl_add_amount (l : List OfflineTransaction) :
    ∀ init : ℚ, l.foldl (fun sum tx => sum + tx.amount) init =
      init + (l.map (fun tx => tx.amount)).sum := by
  induction l with
  | nil => intro init; simp
  | cons t ts ih =>
      intro init
      simp only [List.foldl_cons, List.map_cons, List.sum_cons, ih]
      ring

theorem length_filter_not_add {α : Type} (p : α → Bool) (l : List α) :
    (l.filter p).length + (l.filter (fun a => !(p a))).length = l.length := by
  induction l with
  | nil => simp
  | cons a as ih =>
      cases h : p a <;> simp [List.filter_cons, h] <;> omega

/-! ## Claims about the local store and the sync engine -/

/-- C8.  The retention purge deletes exactly the user's rows that are
`'synced'` and strictly older than the cutoff: membership in the result is
characterised by that predicate, the wallet table is untouched, rows in
`pending`/`syncing`/`failed`/`conflict` state are all kept,
`cleanupOldTransactions` performs the same deletion as
`clearOldSyncedTransactions`, and its returned count is the number of deleted
rows. -/
theorem retention_purge (uid : String) (daysOld now : Int) (db : LocalDB) :
    (∀ tx : OfflineTransaction,
      tx ∈ (clearOldSyncedTransactions uid daysOld now db).transactions ↔
        (tx ∈ db.transactions ∧
          ¬(tx.user_id = uid ∧ tx.sync_status = "synced" ∧
            tx.timestamp < now - daysOld * 24 * 60 * 60 * 1000))) ∧
    (clearOldSyncedTransactions uid daysOld now db).wallet = db.wallet ∧
    (∀ tx ∈ db.transactions,
      (tx.sync_status = "pending" ∨ tx.sync_status = "syncing" ∨
        tx.sync_status = "failed" ∨ tx.sync_status = "conflict") →
      tx ∈ (clearOldSyncedTransactions uid daysOld now db).transactions) ∧
    (cleanupOldTransactions uid daysOld now db).2 =
      clearOldSyncedTransactions uid daysOld now db ∧
    (cleanupOldTransactions uid daysOld now db).1 +
      (clearOldSyncedTransactions uid daysOld now db).transactions.length =
      db.transactions.length := by
  have hmem : ∀ tx : OfflineTransaction,
      tx ∈ (clearOldSyncedTransactions uid daysOld now db).transactions ↔
        (tx ∈ db.transactions ∧
          ¬(tx.user_id = uid ∧ tx.sync_status = "synced" ∧
            tx.timestamp < now - daysOld * 24 * 60 * 60 * 1000)) := by
    intro tx
    simp [clearOldSyncedTransactions, List.mem_filter]
    tauto
  refine ⟨hmem, rfl, ?_, rfl, ?_⟩
  · intro tx htx hst
    refine (hmem tx).mpr ⟨htx, fun hcon => ?_⟩
    rcases hst with h | h | h | h <;> rw [h] at hcon <;>
      exact absurd hcon.2.1 (by decide)
  · simp only [cleanupOldTransactions, clearOldSyncedTransactions, decide_not]
    exact length_filter_not_add _ _

/-- With a non-empty pending set, the sync cycle reaches the server and
applies the response. -/
theorem syncOfflineTransactions_of_ne (uid : String)
    (server : List OfflineTransaction → SyncResponse) (now : Int) (db : LocalDB)
    (hne : getPendingTransactions uid db ≠ []) :
    syncOfflineTransactions uid server now db =
      (server (getPendingTransactions uid db),
        match (server (getPendingTransactions uid db)).new_balance with
        | some nb =>
            updateWalletState
              { id := uid, cached_balance := nb, shadow_balance := nb,
                pending_debits := none, pending_credits := none,
                last_updated := now, last_sync_success := none }
              (if (server (getPendingTransactions uid db)).processed_ids.length > 0
               then markTransactionsSynced
                 (server (getPendingTransactions uid db)).processed_ids db
               else db)
        | none =>
            if (server (getPendingTransactions uid db)).processed_ids.length > 0
            then markTransactionsSynced
              (server (getPendingTransactions uid db)).processed_ids db
            else db) := by
  unfold syncOfflineTransactions
  rw [if_neg (by simpa [List.length_eq_zero] using hne)]

/-- The transactions table after applying a response: exactly the processed
ids are marked synced, everything else is untouched. -/
theorem syncOfflineTransactions_transactions (uid : String)
    (server : List OfflineTransaction → SyncResponse) (now : Int) (db : LocalDB)
    (hne : getPendingTransactions uid db ≠ []) :
    (syncOfflineTransactions uid server now db).2.transactions =
      db.transactions.map (fun tx =>
        if tx.offline_id ∈ (server (getPendingTransactions uid db)).processed_ids
        then { tx with sync_status := "synced" } else tx) := by
  rw [syncOfflineTransactions_of_ne uid server now db hne]
  rcases hnb : (server (getPendingTransactions uid db)).new_balance with _ | nb <;>
    rcases hp : (server (getPendingTransactions uid db)).processed_ids with _ | ⟨i, is⟩ <;>
      simp [hnb, hp, updateWalletState_transactions, markTransactionsSynced]

/-- The wallet row written by a sync cycle whose response carries a
`new_balance`. -/
theorem syncOfflineTransactions_wallet (uid : String)
    (server : List OfflineTransaction → SyncResponse) (now : Int) (db : LocalDB)
    (nb : ℚ) (hne : getPendingTransactions uid db ≠ [])
    (hnb : (server (getPendingTransactions uid db)).new_balance = some nb) :
    getWalletState uid (syncOfflineTransactions uid server now db).2 =
      some { id := uid, cached_balance := nb, shadow_balance := nb,
             pending_debits := none, pending_credits := none,
             last_updated := now, last_sync_success := none } := by
  rw [syncOfflineTransactions_of_ne uid server now db hne]
  simp only [hnb]
  exact getWalletState_updateWalletState
    { id := uid, cached_balance := nb, shadow_balance := nb,
      pending_debits := none, pending_credits := none,
      last_updated := now, last_sync_success := none } _


/-- C4, counterexample.  A sync cycle that receives a response carrying only
error metadata (`error = "Not authenticated"`, empty processed and failed
lists, `new_balance = 0`) does mutate local state: the wallet row is replaced
(cached and shadow balance overwritten with 0), because the code only checks
`new_balance !== undefined` and the error object carries `new_balance: 0`. -/
theorem error_response_counterexample :
    getWalletState "u" (syncOfflineTransactions "u" srvAuthError 1234 dbOnePending).2 ≠
      getWalletState "u" dbOnePending := by
  norm_num +decide [syncOfflineTransactions, getPendingTransactions,
    getWalletState, updateWalletState, markTransactionsSynced, srvAuthError,
    dbOnePending, txPending1, walletU0]

/-- C4, amended.  On a response with an empty processed list and a present
`new_balance` (the shape of the error-metadata responses), no transaction is
advanced — the transactions table is untouched — but the user's wallet row is
replaced by one whose cached and shadow balances are the response's
`new_balance` (0 for the error responses) with the pending aggregates and
`last_sync_success` dropped. -/
theorem error_response_behavior (uid : String)
    (server : List OfflineTransaction → SyncResponse) (now : Int) (db : LocalDB)
    (nb : ℚ) (hne : getPendingTransactions uid db ≠ [])
    (hproc : (server (getPendingTransactions uid db)).processed_ids = [])
    (hnb : (server (getPendingTransactions uid db)).new_balance = some nb) :
    (syncOfflineTransactions uid server now db).2.transactions = db.transactions ∧
    getWalletState uid (syncOfflineTransactions uid server now db).2 =
      some { id := uid, cached_balance := nb, shadow_balance := nb,
             pending_debits := none, pending_credits := none,
             last_updated := now, last_sync_success := none } := by
  constructor
  · rw [syncOfflineTransactions_transactions uid server now db hne, hproc]
    simp
  · exact syncOfflineTransactions_wallet uid server now db nb hne hnb

/-- Witness for C4 (amended) at the concrete error-response input. -/
theorem error_response_behavior_witness :
    getPendingTransactions "u" dbOnePending ≠ [] ∧
    ((syncOfflineTransactions "u" srvAuthError 1234 dbOnePending).2.transactions =
        dbOnePending.transactions ∧
      getWalletState "u" (syncOfflineTransactions "u" srvAuthError 1234 dbOnePending).2 =
        some { id := "u", cached_balance := 0, shadow_balance := 0,
               pending_debits := none, pending_credits := none,
               last_updated := 1234, last_sync_success := none }) :=
  ⟨by norm_num +decide [getPendingTransactions, dbOnePending, txPending1],
   error_response_behavior "u" srvAuthError 1234 dbOnePending 0
     (by norm_num +decide [getPendingTransactions, dbOnePending, txPending1])
     rfl rfl⟩

/-- C5, counterexample.  An `offline_id` reported with a failure reason is not
marked failed and its `retry_count` is not incremented: after a response
failing "t1" with "Insufficient balance", the local row still has
`sync_status = "pending"` and `retry_count` unset. -/
theorem failed_ids_ignored_counterexample :
    ((syncOfflineTransactions "u" srvRejectT1 777 dbOnePendingNoWallet).2.transactions.find?
        (fun t => t.offline_id = "t1")).map (fun t => t.sync_status) ≠
      some "failed" ∧
    ((syncOfflineTransactions "u" srvRejectT1 777 dbOnePendingNoWallet).2.transactions.find?
        (fun t => t.offline_id = "t1")).map (fun t => t.retry_count) =
      some none := by
  constructor <;>
    norm_num +decide [syncOfflineTransactions, getPendingTransactions,
      getWalletState, updateWalletState, markTransactionsSynced, srvRejectT1,
      dbOnePendingNoWallet, txPending1]

/-- C5, amended.  Applying a sync response touches only the processed ids:
entries reported with a failure reason (and any entry not in the processed
list) keep their prior row unchanged — no failed marking, no retry increment,
no conflict transition — and an automatic sync batch only ever contains rows
whose `sync_status` is `'pending'`, so `conflict` (and `failed`) entries are
excluded from every batch. -/
theorem failed_ids_ignored (uid : String)
    (server : List OfflineTransaction → SyncResponse) (now : Int) (db : LocalDB)
    (hne : getPendingTransactions uid db ≠ []) :
    (syncOfflineTransactions uid server now db).1 =
      server (getPendingTransactions uid db) ∧
    (syncOfflineTransactions uid server now db).2.transactions =
      db.transactions.map (fun tx =>
        if tx.offline_id ∈ (server (getPendingTransactions uid db)).processed_ids
        then { tx with sync_status := "synced" } else tx) ∧
    (∀ tx ∈ db.transactions,
      tx.offline_id ∉ (server (getPendingTransactions uid db)).processed_ids →
      tx ∈ (syncOfflineTransactions uid server now db).2.transactions) ∧
    (∀ tx ∈ getPendingTransactions uid db, tx.sync_status = "pending") := by
  refine ⟨?_, syncOfflineTransactions_transactions uid server now db hne, ?_, ?_⟩
  · rw [syncOfflineTransactions_of_ne uid server now db hne]
  · intro tx htx hnotin
    rw [syncOfflineTransactions_transactions uid server now db hne]
    exact List.mem_map.mpr ⟨tx, htx, by rw [if_neg hnotin]⟩
  · intro tx htx
    have h1 := List.mem_filter.mp htx
    simp only [decide_eq_true_eq] at h1
    exact h1.2.2

/-- Witness for C5 (amended) at the concrete failure-response input. -/
theorem failed_ids_ignored_witness :
    getPendingTransactions "u" dbOnePendingNoWallet ≠ [] ∧
    (syncOfflineTransactions "u" srvRejectT1 777 dbOnePendingNoWallet).2.transactions =
      dbOnePendingNoWallet.transactions.map (fun tx =>
        if tx.offline_id ∈ (srvRejectT1
            (getPendingTransactions "u" dbOnePendingNoWallet)).processed_ids
        then { tx with sync_status := "synced" } else tx) :=
  ⟨by norm_num +decide [getPendingTransactions, dbOnePendingNoWallet, txPending1],
   (failed_ids_ignored "u" srvRejectT1 777 dbOnePendingNoWallet
     (by norm_num +decide [getPendingTransactions, dbOnePendingNoWallet,
           txPending1])).2.1⟩

/-- C10.  After a sync cycle whose response carries a `new_balance`, the
user's wallet row is wholly replaced by a record holding only `id`,
`cached_balance`, `shadow_balance` and `last_updated`: `pending_debits`,
`pending_credits` and `last_sync_success` are erased, so
`checkWalletStaleness` immediately afterwards returns `true` at every clock
reading. -/
theorem post_sync_wallet_reset (uid : String)
    (server : List OfflineTransaction → SyncResponse) (now : Int) (db : LocalDB)
    (nb : ℚ) (hne : getPendingTransactions uid db ≠ [])
    (hnb : (server (getPendingTransactions uid db)).new_balance = some nb) :
    getWalletState uid (syncOfflineTransactions uid server now db).2 =
      some { id := uid, cached_balance := nb, shadow_balance := nb,
             pending_debits := none, pending_credits := none,
             last_updated := now, last_sync_success := none } ∧
    ∀ t : Int,
      checkWalletStaleness uid t (syncOfflineTransactions uid server now db).2 = true := by
  have hw := syncOfflineTransactions_wallet uid server now db nb hne hnb
  refine ⟨hw, fun t => ?_⟩
  unfold checkWalletStaleness
  rw [hw]

/-- Witness for C10 at a concrete successful sync. -/
theorem post_sync_wallet_reset_witness :
    getPendingTransactions "u" dbOnePending ≠ [] ∧
    (getWalletState "u" (syncOfflineTransactions "u" srvAcceptT1 42 dbOnePending).2 =
        some { id := "u", cached_balance := 75, shadow_balance := 75,
               pending_debits := none, pending_credits := none,
               last_updated := 42, last_sync_success := none } ∧
      ∀ t : Int,
        checkWalletStaleness "u" t
          (syncOfflineTransactions "u" srvAcceptT1 42 dbOnePending).2 = true) :=
  ⟨by norm_num +decide [getPendingTransactions, dbOnePending, txPending1],
   post_sync_wallet_reset "u" srvAcceptT1 42 dbOnePending 75
     (by norm_num +decide [getPendingTransactions, dbOnePending, txPending1]) rfl⟩


/-- C6, counterexample.  The wallet recomputation aggregates only over rows in
`'pending'` state: with a single failed debit of 100 and cached balance 1000,
the recomputed shadow balance is 1000, not the 900 that aggregating over
pending/syncing/failed rows would give. -/
theorem wallet_recompute_counterexample :
    (getWalletState "u" (updateWalletPendingAmounts "u" dbOneFailed)).map
        (fun w => w.shadow_balance) = some 1000 ∧
    ¬((1000 : ℚ) = 1000 -
        ((dbOneFailed.transactions.filter (fun tx =>
            tx.user_id = "u" ∧
            (tx.sync_status = "pending" ∨ tx.sync_status = "syncing" ∨
              tx.sync_status = "failed") ∧
            tx.type = "debit")).map (fun tx => tx.amount)).sum +
        ((dbOneFailed.transactions.filter (fun tx =>
            tx.user_id = "u" ∧
            (tx.sync_status = "pending" ∨ tx.sync_status = "syncing" ∨
              tx.sync_status = "failed") ∧
            tx.type = "credit")).map (fun tx => tx.amount)).sum) := by
  constructor <;>
    norm_num +decide [updateWalletPendingAmounts, getPendingTransactions,
      getWalletState, updateWalletState, dbOneFailed, txFailed1, walletU1]

/-- C6, amended.  `updateWalletPendingAmounts` establishes `shadow_balance =
cached_balance - Σ(pending debits) + Σ(pending credits)` where the aggregates
range only over the user's transactions whose `sync_status` is exactly
`'pending'` (rows in `syncing` or `failed` state are excluded). -/
theorem wallet_recompute (uid : String) (db : LocalDB) (w : WalletState)
    (h : getWalletState uid db = some w) :
    getWalletState uid (updateWalletPendingAmounts uid db) =
      some { w with
        pending_debits := some (((getPendingTransactions uid db).filter
          (fun tx => tx.type = "debit")).map (fun tx => tx.amount)).sum
        pending_credits := some (((getPendingTransactions uid db).filter
          (fun tx => tx.type = "credit")).map (fun tx => tx.amount)).sum
        shadow_balance := w.cached_balance
          - (((getPendingTransactions uid db).filter
              (fun tx => tx.type = "debit")).map (fun tx => tx.amount)).sum
          + (((getPendingTransactions uid db).filter
              (fun tx => tx.type = "credit")).map (fun tx => tx.amount)).sum } ∧
    (∀ tx ∈ getPendingTransactions uid db, tx.sync_status = "pending") := by
  have hid : w.id = uid := by
    have hp := List.find?_some h
    simpa using hp
  constructor
  · simp only [updateWalletPendingAmounts, h, foldl_add_amount, zero_add]
    exact getWalletState_updateWalletState_of_id _ db uid hid
  · intro tx htx
    have h1 := List.mem_filter.mp htx
    simp only [decide_eq_true_eq] at h1
    exact h1.2.2

/-- Witness for C6 (amended) at the concrete one-failed-row store. -/
theorem wallet_recompute_witness :
    getWalletState "u" dbOneFailed = some walletU1 ∧
    (getWalletState "u" (updateWalletPendingAmounts "u" dbOneFailed) =
        some { walletU1 with
          pending_debits := some (((getPendingTransactions "u" dbOneFailed).filter
            (fun tx => tx.type = "debit")).map (fun tx => tx.amount)).sum
          pending_credits := some (((getPendingTransactions "u" dbOneFailed).filter
            (fun tx => tx.type = "credit")).map (fun tx => tx.amount)).sum
          shadow_balance := walletU1.cached_balance
            - (((getPendingTransactions "u" dbOneFailed).filter
                (fun tx => tx.type = "debit")).map (fun tx => tx.amount)).sum
            + (((getPendingTransactions "u" dbOneFailed).filter
                (fun tx => tx.type = "credit")).map (fun tx => tx.amount)).sum } ∧
      (∀ tx ∈ getPendingTransactions "u" dbOneFailed, tx.sync_status = "pending")) :=
  ⟨rfl, wallet_recompute "u" dbOneFailed walletU1 rfl⟩

/-- C7, counterexample.  `updateTransactionStatus` (the code behind
`markFailed`/`markConflict`) is not idempotent: calling it twice with
`incrementRetry` increments `retry_count` twice, so the double application
differs from the single one. -/
theorem mark_idempotent_counterexample :
    updateTransactionStatus "t1" "failed" true 1000
        (updateTransactionStatus "t1" "failed" true 1000 dbOnePendingNoWallet) ≠
      updateTransactionStatus "t1" "failed" true 1000 dbOnePendingNoWallet := by
  norm_num +decide [updateTransactionStatus, dbOnePendingNoWallet, txPending1]

/-- One call of `updateTransactionStatus` with `incrementRetry`, observed via
`find?` on the updated row. -/
theorem updateTransactionStatus_find? (oid status : String) (now : Int)
    (db : LocalDB) (tx : OfflineTransaction)
    (h : db.transactions.find? (fun t => t.offline_id = oid) = some tx) :
    (updateTransactionStatus oid status true now db).transactions.find?
        (fun t => t.offline_id = oid) =
      some { tx with sync_status := status, last_sync_attempt := some now,
                     retry_count := some (tx.retry_count.getD 0 + 1) } := by
  simp only [updateTransactionStatus, h, if_true]
  rw [find?_map_update db.transactions oid
    (fun t => { t with
                sync_status := status
                last_sync_attempt := some now
                retry_count := some (tx.retry_count.getD 0 + 1) })
    (fun t => rfl), h]
  rfl

/-- C7, amended.  `markTransactionsSynced` is idempotent and re-marking an
already-synced row leaves it unchanged; `updateTransactionStatus` is not
idempotent: it unconditionally rewrites `sync_status` and
`last_sync_attempt`, and with `incrementRetry` each invocation increments
`retry_count` again, so a double application leaves `retry_count` two higher
than before. -/
theorem mark_operations :
    (∀ (ids : List String) (db : LocalDB),
      markTransactionsSynced ids (markTransactionsSynced ids db) =
        markTransactionsSynced ids db) ∧
    (∀ (ids : List String) (db : LocalDB), ∀ tx ∈ db.transactions,
      tx.sync_status = "synced" →
      tx ∈ (markTransactionsSynced ids db).transactions) ∧
    (∀ (oid status : String) (now : Int) (db : LocalDB)
        (tx : OfflineTransaction),
      db.transactions.find? (fun t => t.offline_id = oid) = some tx →
      (updateTransactionStatus oid status true now
          (updateTransactionStatus oid status true now db)).transactions.find?
          (fun t => t.offline_id = oid) =
        some { tx with sync_status := status, last_sync_attempt := some now,
                       retry_count := some (tx.retry_count.getD 0 + 2) }) := by
  refine ⟨?_, ?_, ?_⟩
  · intro ids db
    unfold markTransactionsSynced
    have hgg : ((fun tx : OfflineTransaction =>
          if tx.offline_id ∈ ids then { tx with sync_status := "synced" } else tx) ∘
        (fun tx : OfflineTransaction =>
          if tx.offline_id ∈ ids then { tx with sync_status := "synced" } else tx)) =
        (fun tx : OfflineTransaction =>
          if tx.offline_id ∈ ids then { tx with sync_status := "synced" } else tx) := by
      funext t
      by_cases h : t.offline_id ∈ ids <;> simp [Function.comp, h]
    simp only [List.map_map, hgg]
  · intro ids db tx htx hsy
    unfold markTransactionsSynced
    refine List.mem_map.mpr ⟨tx, htx, ?_⟩
    by_cases h : tx.offline_id ∈ ids
    · rw [if_pos h]
      cases tx
      simp_all
    · rw [if_neg h]
  · intro oid status now db tx h
    have h1 := updateTransactionStatus_find? oid status now db tx h
    rw [updateTransactionStatus_find? oid status now _ _ h1]
    rfl

/-- Witness for C7 (amended): double-marking "t1" failed leaves `retry_count`
at 2. -/
theorem mark_operations_witness :
    dbOnePendingNoWallet.transactions.find? (fun t => t.offline_id = "t1") =
      some txPending1 ∧
    (updateTransactionStatus "t1" "failed" true 5
        (updateTransactionStatus "t1" "failed" true 5
          dbOnePendingNoWallet)).transactions.find?
        (fun t => t.offline_id = "t1") =
      some { txPending1 with
             sync_status := "failed"
             last_sync_attempt := some 5
             retry_count := some (txPending1.retry_count.getD 0 + 2) } :=
  ⟨rfl, mark_operations.2.2 "t1" "failed" 5 dbOnePendingNoWallet txPending1 rfl⟩

end PhantomPay
